import Mathlib

/-!
Verification of the pdf-resizer utility (src/main.py) against its
natural-language specification.

The program rescales every page of a PDF onto a fixed B5 page,
preserving aspect ratio and centering the content, behind a small
interactive shell (file selection, default output name derivation,
overwrite confirmation, error reporting).

The embedding below models:
  * the fixed B5 target size in points (main.py lines 14-16);
  * the per-page fit geometry and the page loop of `resize_pdf_to_b5`
    (main.py lines 19-30), with floating arithmetic modelled exactly
    over the rationals, and the unguarded division by the source page
    width/height modelled as an `Except.error` (Python raises
    `ZeroDivisionError` on float division by zero);
  * the pathlib stem/suffix/with_name operations and the shell logic of
    `MainWindow.refresh_default_output` and `MainWindow.run`
    (main.py lines 117-155), with the file system and the user dialogs
    abstracted into an environment record.
-/

/-- main.py line 14: `B5_W_MM, B5_H_MM = 182, 257`. -/
def B5_W_MM : ℚ := 182

/-- main.py line 14: `B5_W_MM, B5_H_MM = 182, 257`. -/
def B5_H_MM : ℚ := 257

/-- main.py line 15: `MM_TO_PT = 72 / 25.4` (25.4 is the exact decimal 254/10). -/
def MM_TO_PT : ℚ := 72 / (254 / 10)

/-- main.py line 16: `B5_W_PT = B5_W_MM * MM_TO_PT`. -/
def B5_W_PT : ℚ := B5_W_MM * MM_TO_PT

/-- main.py line 16: `B5_H_PT = B5_H_MM * MM_TO_PT`. -/
def B5_H_PT : ℚ := B5_H_MM * MM_TO_PT

/-- A source page, carrying its rectangle dimensions `r.width`, `r.height`
(main.py line 24). -/
structure Page where
  width : ℚ
  height : ℚ
  deriving DecidableEq

/-- A fitz rectangle `fitz.Rect(x0, y0, x1, y1)` (main.py line 28). -/
structure Rect where
  x0 : ℚ
  y0 : ℚ
  x1 : ℚ
  y1 : ℚ
  deriving DecidableEq

/-- A destination page: created with explicit width/height (main.py line 23)
and holding the rectangle into which the source page is drawn
(main.py line 29, `show_pdf_page(dest, src, sp.number, keep_proportion=True)`). -/
structure OutPage where
  width : ℚ
  height : ℚ
  dest : Rect
  deriving DecidableEq

/-- main.py line 25: `s = min(B5_W_PT / r.width, B5_H_PT / r.height)`. -/
def fitScale (W H : ℚ) : ℚ := min (B5_W_PT / W) (B5_H_PT / H)

/-- main.py line 27: `x0 = (B5_W_PT - dw) / 2` with `dw = r.width * s` (line 26). -/
def offsetX (W H : ℚ) : ℚ := (B5_W_PT - W * fitScale W H) / 2

/-- main.py line 27: `y0 = (B5_H_PT - dh) / 2` with `dh = r.height * s` (line 26). -/
def offsetY (W H : ℚ) : ℚ := (B5_H_PT - H * fitScale W H) / 2

/-- The body of the page loop (main.py lines 23-29).  Python float division
by zero raises `ZeroDivisionError`, modelled as `Except.error`; otherwise the
destination page has the fixed B5 dimensions and the centered scaled rect. -/
def processPage (p : Page) : Except String OutPage :=
  if p.width = 0 ∨ p.height = 0 then
    Except.error "ZeroDivisionError: float division by zero"
  else
    Except.ok (OutPage.mk B5_W_PT B5_H_PT
      (Rect.mk (offsetX p.width p.height) (offsetY p.width p.height)
        (offsetX p.width p.height + p.width * fitScale p.width p.height)
        (offsetY p.width p.height + p.height * fitScale p.width p.height)))

/-- main.py lines 22-29: `for sp in src: ...` — the pages of the source
document are processed in order, appending one new page to `dst` per source
page; the first error aborts the whole operation (no output is saved). -/
def resize_pdf_to_b5 : List Page → Except String (List OutPage)
  | [] => Except.ok []
  | p :: ps =>
    match processPage p with
    | Except.error e => Except.error e
    | Except.ok q =>
      match resize_pdf_to_b5 ps with
      | Except.error e => Except.error e
      | Except.ok qs => Except.ok (q :: qs)

lemma B5_W_PT_pos : 0 < B5_W_PT := by
  norm_num [B5_W_PT, B5_W_MM, MM_TO_PT]

lemma B5_H_PT_pos : 0 < B5_H_PT := by
  norm_num [B5_H_PT, B5_H_MM, MM_TO_PT]

/-- Core fit-geometry facts, shared by the claim theorems below. -/
lemma fitScale_facts (W H : ℚ) (hW : 0 < W) (hH : 0 < H) :
    W * fitScale W H ≤ B5_W_PT ∧ H * fitScale W H ≤ B5_H_PT ∧
      (W * fitScale W H = B5_W_PT ∨ H * fitScale W H = B5_H_PT) := by
  unfold fitScale
  rcases le_total (B5_W_PT / W) (B5_H_PT / H) with h | h
  · rw [min_eq_left h]
    have e1 : W * (B5_W_PT / W) = B5_W_PT := by field_simp
    have e2 : H * (B5_H_PT / H) = B5_H_PT := by field_simp
    refine ⟨le_of_eq e1, ?_, Or.inl e1⟩
    calc H * (B5_W_PT / W) ≤ H * (B5_H_PT / H) :=
          mul_le_mul_of_nonneg_left h hH.le
      _ = B5_H_PT := e2
  · rw [min_eq_right h]
    have e1 : W * (B5_W_PT / W) = B5_W_PT := by field_simp
    have e2 : H * (B5_H_PT / H) = B5_H_PT := by field_simp
    refine ⟨?_, le_of_eq e2, Or.inr e2⟩
    calc W * (B5_H_PT / H) ≤ W * (B5_W_PT / W) :=
          mul_le_mul_of_nonneg_left h hW.le
      _ = B5_W_PT := e1

/-- C1: for every source page of width W > 0 and height H > 0 and the fixed
target size (B5_W_PT, B5_H_PT), the scale computed at main.py line 25 is
`min(B5_W_PT/W, B5_H_PT/H)`, and (in exact arithmetic) it satisfies
`W*s ≤ B5_W_PT` and `H*s ≤ B5_H_PT` with at least one equality. -/
theorem fitScale_is_min_and_fits (W H : ℚ) (hW : 0 < W) (hH : 0 < H) :
    fitScale W H = min (B5_W_PT / W) (B5_H_PT / H) ∧
    W * fitScale W H ≤ B5_W_PT ∧ H * fitScale W H ≤ B5_H_PT ∧
    (W * fitScale W H = B5_W_PT ∨ H * fitScale W H = B5_H_PT) := by
  obtain ⟨h1, h2, h3⟩ := fitScale_facts W H hW hH
  exact ⟨rfl, h1, h2, h3⟩

/-- Witness for C1 at the concrete page W = H = 1. -/
theorem fitScale_is_min_and_fits_w :
    fitScale 1 1 = min (B5_W_PT / 1) (B5_H_PT / 1) ∧
    1 * fitScale 1 1 ≤ B5_W_PT ∧ 1 * fitScale 1 1 ≤ B5_H_PT ∧
    (1 * fitScale 1 1 = B5_W_PT ∨ 1 * fitScale 1 1 = B5_H_PT) :=
  fitScale_is_min_and_fits 1 1 (by norm_num) (by norm_num)

/-- C2: for every source page of width W > 0 and height H > 0, the centering
offsets of main.py line 27 are `(B5_W_PT - W*s)/2` and `(B5_H_PT - H*s)/2`,
both nonnegative, the scaled content rectangle lies inside the target page,
and the content is centered on both axes (the left margin equals the right
margin and the bottom margin equals the top margin). -/
theorem offsets_center_content (W H : ℚ) (hW : 0 < W) (hH : 0 < H) :
    offsetX W H = (B5_W_PT - W * fitScale W H) / 2 ∧
    offsetY W H = (B5_H_PT - H * fitScale W H) / 2 ∧
    0 ≤ offsetX W H ∧ 0 ≤ offsetY W H ∧
    offsetX W H + W * fitScale W H ≤ B5_W_PT ∧
    offsetY W H + H * fitScale W H ≤ B5_H_PT ∧
    B5_W_PT - (offsetX W H + W * fitScale W H) = offsetX W H ∧
    B5_H_PT - (offsetY W H + H * fitScale W H) = offsetY W H := by
  obtain ⟨h1, h2, -⟩ := fitScale_facts W H hW hH
  unfold offsetX offsetY
  refine ⟨rfl, rfl, ?_, ?_, ?_, ?_, ?_, ?_⟩ <;> linarith

/-- Witness for C2 at the concrete page W = H = 1. -/
theorem offsets_center_content_w :
    offsetX 1 1 = (B5_W_PT - 1 * fitScale 1 1) / 2 ∧
    offsetY 1 1 = (B5_H_PT - 1 * fitScale 1 1) / 2 ∧
    0 ≤ offsetX 1 1 ∧ 0 ≤ offsetY 1 1 ∧
    offsetX 1 1 + 1 * fitScale 1 1 ≤ B5_W_PT ∧
    offsetY 1 1 + 1 * fitScale 1 1 ≤ B5_H_PT ∧
    B5_W_PT - (offsetX 1 1 + 1 * fitScale 1 1) = offsetX 1 1 ∧
    B5_H_PT - (offsetY 1 1 + 1 * fitScale 1 1) = offsetY 1 1 :=
  offsets_center_content 1 1 (by norm_num) (by norm_num)

lemma processPage_ok_dims (p : Page) (q : OutPage)
    (h : processPage p = Except.ok q) :
    q.width = B5_W_PT ∧ q.height = B5_H_PT := by
  unfold processPage at h
  split at h
  · exact absurd h (by simp)
  · rw [Except.ok.injEq] at h
    subst h
    exact ⟨rfl, rfl⟩

lemma processPage_ok_of_pos (p : Page) (hW : p.width ≠ 0) (hH : p.height ≠ 0) :
    ∃ q, processPage p = Except.ok q := by
  unfold processPage
  rw [if_neg (by tauto)]
  exact ⟨_, rfl⟩

lemma processPage_error_of_zero (p : Page) (h : p.width = 0 ∨ p.height = 0) :
    processPage p = Except.error "ZeroDivisionError: float division by zero" := by
  unfold processPage
  rw [if_pos h]

/-- C3: whenever the resize operation succeeds, the output document has
exactly as many pages as the input document (including the 0-page case);
output page i is the page produced from input page i. -/
theorem resize_preserves_page_count (doc : List Page) (out : List OutPage)
    (h : resize_pdf_to_b5 doc = Except.ok out) :
    out.length = doc.length ∧
    ∀ i (h1 : i < doc.length) (h2 : i < out.length),
      processPage (doc.get ⟨i, h1⟩) = Except.ok (out.get ⟨i, h2⟩) := by
  induction doc generalizing out with
  | nil =>
    unfold resize_pdf_to_b5 at h
    rw [Except.ok.injEq] at h
    subst h
    exact ⟨rfl, fun i h1 _ => absurd h1 (Nat.not_lt_zero i)⟩
  | cons p ps ih =>
    unfold resize_pdf_to_b5 at h
    cases hp : processPage p with
    | error e => rw [hp] at h; exact absurd h (by simp)
    | ok q =>
      rw [hp] at h
      cases hr : resize_pdf_to_b5 ps with
      | error e => rw [hr] at h; exact absurd h (by simp)
      | ok qs =>
        rw [hr] at h
        rw [Except.ok.injEq] at h
        subst h
        obtain ⟨hl, hi⟩ := ih qs hr
        refine ⟨by simp [hl], ?_⟩
        intro i h1 h2
        cases i with
        | zero => simpa using hp
        | succ n =>
          have hn1 : n < ps.length := by simpa using h1
          have hn2 : n < qs.length := by simpa using h2
          simpa using hi n hn1 hn2

/-- The output page produced from a 100 by 200 source page. -/
def outPage100x200 : OutPage :=
  OutPage.mk B5_W_PT B5_H_PT
    (Rect.mk (offsetX 100 200) (offsetY 100 200)
      (offsetX 100 200 + 100 * fitScale 100 200)
      (offsetY 100 200 + 200 * fitScale 100 200))

/-- The output page produced from a 300 by 50 source page. -/
def outPage300x50 : OutPage :=
  OutPage.mk B5_W_PT B5_H_PT
    (Rect.mk (offsetX 300 50) (offsetY 300 50)
      (offsetX 300 50 + 300 * fitScale 300 50)
      (offsetY 300 50 + 50 * fitScale 300 50))

/-- Witness for C3 on a concrete one-page document, instantiated at page 0. -/
theorem resize_preserves_page_count_w :
    ([outPage100x200].length = [Page.mk 100 200].length) ∧
    processPage (Page.mk 100 200) = Except.ok outPage100x200 :=
  have h := resize_preserves_page_count [Page.mk 100 200] [outPage100x200]
    (by norm_num [resize_pdf_to_b5, processPage, outPage100x200])
  ⟨h.1, h.2 0 (by norm_num) (by norm_num)⟩

/-- C4: whenever the resize operation succeeds, every page of the output
document has width exactly B5_W_PT and height exactly B5_H_PT (182 mm and
257 mm at 72/25.4 points per mm), regardless of the input page dimensions. -/
theorem output_pages_have_target_size (doc : List Page) (out : List OutPage)
    (h : resize_pdf_to_b5 doc = Except.ok out) :
    ∀ q ∈ out, q.width = B5_W_PT ∧ q.height = B5_H_PT := by
  induction doc generalizing out with
  | nil =>
    unfold resize_pdf_to_b5 at h
    rw [Except.ok.injEq] at h
    subst h
    intro q hq
    exact absurd hq (List.not_mem_nil q)
  | cons p ps ih =>
    unfold resize_pdf_to_b5 at h
    cases hp : processPage p with
    | error e => rw [hp] at h; exact absurd h (by simp)
    | ok q =>
      rw [hp] at h
      cases hr : resize_pdf_to_b5 ps with
      | error e => rw [hr] at h; exact absurd h (by simp)
      | ok qs =>
        rw [hr] at h
        rw [Except.ok.injEq] at h
        subst h
        intro r hr2
        rcases List.mem_cons.mp hr2 with h0 | h0
        · subst h0
          exact processPage_ok_dims p r hp
        · exact ih qs hr r h0

/-- Witness for C4: a two-page document with pages of different sizes,
instantiated at each of the two output pages. -/
theorem output_pages_have_target_size_w :
    outPage100x200.width = B5_W_PT ∧ outPage100x200.height = B5_H_PT ∧
    outPage300x50.width = B5_W_PT ∧ outPage300x50.height = B5_H_PT :=
  have h := output_pages_have_target_size [Page.mk 100 200, Page.mk 300 50]
    [outPage100x200, outPage300x50]
    (by norm_num [resize_pdf_to_b5, processPage, outPage100x200, outPage300x50])
  ⟨(h outPage100x200 (by simp)).1, (h outPage100x200 (by simp)).2,
   (h outPage300x50 (by simp)).1, (h outPage300x50 (by simp)).2⟩

/-- C10: the fit computation divides by the source page dimensions without a
guard: any document containing a page of zero width or zero height makes the
operation raise a division-by-zero error instead of producing output, and the
error branch is unreachable when every page has strictly positive width and
height. -/
theorem resize_division_by_zero (doc : List Page) :
    ((∃ p ∈ doc, p.width = 0 ∨ p.height = 0) →
        ∃ e, resize_pdf_to_b5 doc = Except.error e) ∧
    ((∀ p ∈ doc, 0 < p.width ∧ 0 < p.height) →
        ∃ out, resize_pdf_to_b5 doc = Except.ok out) := by
  induction doc with
  | nil =>
    refine ⟨?_, ?_⟩
    · rintro ⟨p, hp, -⟩
      exact absurd hp (List.not_mem_nil p)
    · intro _
      exact ⟨[], rfl⟩
  | cons p ps ih =>
    refine ⟨?_, ?_⟩
    · rintro ⟨r, hr, hz⟩
      rcases List.mem_cons.mp hr with h0 | h0
      · subst h0
        refine ⟨"ZeroDivisionError: float division by zero", ?_⟩
        unfold resize_pdf_to_b5
        rw [processPage_error_of_zero r hz]
      · by_cases hpz : p.width = 0 ∨ p.height = 0
        · refine ⟨"ZeroDivisionError: float division by zero", ?_⟩
          unfold resize_pdf_to_b5
          rw [processPage_error_of_zero p hpz]
        · push_neg at hpz
          obtain ⟨q, hq⟩ := processPage_ok_of_pos p hpz.1 hpz.2
          obtain ⟨e, he⟩ := ih.1 ⟨r, h0, hz⟩
          refine ⟨e, ?_⟩
          unfold resize_pdf_to_b5
          rw [hq, he]
    · intro hpos
      have hp := hpos p (List.mem_cons_self p ps)
      obtain ⟨q, hq⟩ := processPage_ok_of_pos p (ne_of_gt hp.1) (ne_of_gt hp.2)
      obtain ⟨qs, hqs⟩ := ih.2 (fun r hr => hpos r (List.mem_cons_of_mem p hr))
      refine ⟨q :: qs, ?_⟩
      unfold resize_pdf_to_b5
      rw [hq, hqs]

/-- Witness for C10: a page of zero width makes the operation fail, and a
document of strictly positive pages succeeds. -/
theorem resize_division_by_zero_w :
    (∃ e, resize_pdf_to_b5 [Page.mk 0 100] = Except.error e) ∧
    (∃ out, resize_pdf_to_b5 [Page.mk 100 200] = Except.ok out) :=
  ⟨(resize_division_by_zero [Page.mk 0 100]).1
      ⟨Page.mk 0 100, List.mem_cons_self _ _, Or.inl rfl⟩,
   (resize_division_by_zero [Page.mk 100 200]).2
      (by intro r hr; rw [List.mem_singleton] at hr; subst hr
          exact ⟨by norm_num, by norm_num⟩)⟩

/-- A filesystem path as pathlib sees it: parent directory components and a
final component `name`. -/
structure FsPath where
  parent : List String
  name : String
  deriving DecidableEq

/-- Index of the last occurrence of a dot in a character list, starting the
numbering at `i` — the embedding of CPython `str.rfind` specialised to a dot. -/
def lastDotAux : List Char → Nat → Option Nat
  | [], _ => none
  | c :: cs, i =>
    match lastDotAux cs (i + 1) with
    | some j => some j
    | none => if c = Char.ofNat 46 then some i else none

/-- CPython `PurePath.stem`: with `i = name.rfind(".")`, the stem is
`name[:i]` when `0 < i < len(name) - 1`, else the whole name. -/
def pathStem (n : String) : String :=
  let cs := n.toList
  match lastDotAux cs 0 with
  | some i => if 0 < i ∧ i + 1 < cs.length then String.mk (cs.take i) else n
  | none => n

/-- CPython `PurePath.suffix`: with `i = name.rfind(".")`, the suffix is
`name[i:]` when `0 < i < len(name) - 1`, else the empty string. -/
def pathSuffix (n : String) : String :=
  let cs := n.toList
  match lastDotAux cs 0 with
  | some i => if 0 < i ∧ i + 1 < cs.length then String.mk (cs.drop i) else ""
  | none => ""

/-- `PurePath.with_name`: replace the final component, keep the directory. -/
def withName (p : FsPath) (n : String) : FsPath := FsPath.mk p.parent n

/-- Python `str.lower()`, character by character (the suffixes compared here
are ASCII). -/
def strLower (s : String) : String := String.mk (s.toList.map Char.toLower)

/-- Python `str.strip()`: remove leading and trailing whitespace. -/
def strStrip (s : String) : String :=
  String.mk (((s.toList.dropWhile Char.isWhitespace).reverse.dropWhile
    Char.isWhitespace).reverse)

/-- main.py line 77: the single size-combo entry carries the label "B5". -/
def sizeLabel : String := "B5"

/-- main.py line 124 (and line 139): the default output name
`f"{stem}_{label}.pdf"`. -/
def defaultOutputName (p : FsPath) : String :=
  pathStem p.name ++ "_" ++ sizeLabel ++ ".pdf"

/-- main.py lines 138-139: `out_name = self.output_name_edit.text().strip()
or f"{in_path.stem}_{label}.pdf"`. -/
def resolvedOutputName (edit : String) (p : FsPath) : String :=
  if strStrip edit = "" then defaultOutputName p else strStrip edit

/-- main.py line 141: `out_path = in_path.with_name(out_name)` — the output
path lives in the input's directory. -/
def resolvedOutputPath (p : FsPath) (edit : String) : FsPath :=
  withName p (resolvedOutputName edit p)

/-- State of the shell widgets: the (read-only) input line edit, holding
either no path (empty text) or the selected path, and the output-name edit. -/
structure ShellState where
  inputPath : Option FsPath
  outputNameEdit : String

/-- The environment of one `run` invocation: which paths exist on disk,
the user's answer to the overwrite dialog, and the outcome of the
`resize_pdf_to_b5` call (success, or the raised exception's message). -/
structure Env where
  pathExists : FsPath → Bool
  confirmOverwrite : Bool
  resizeResult : Except String Unit

/-- main.py lines 117-126, `MainWindow.refresh_default_output`: when an input
path is set and the output-name edit is empty, fill it with the default name. -/
def refreshDefaultOutput (st : ShellState) : ShellState :=
  match st.inputPath with
  | none => st
  | some p =>
    if st.outputNameEdit = "" then
      ShellState.mk st.inputPath (defaultOutputName p)
    else st

/-- Outcome of one `MainWindow.run` invocation (main.py lines 128-155). -/
inductive RunOutcome where
  | warnNoInput
  | errInvalidInput
  | abortOverwrite
  | opFailed (msg : String)
  | saved (outPath : FsPath)
  deriving DecidableEq

/-- main.py lines 128-155, `MainWindow.run`: validate the input path, resolve
the output path, confirm overwriting an existing file, invoke the resize
operation, and report its success or failure. -/
def runShell (st : ShellState) (env : Env) : RunOutcome :=
  match st.inputPath with
  | none => RunOutcome.warnNoInput
  | some inPath =>
    if env.pathExists inPath = false ∨ strLower (pathSuffix inPath.name) ≠ ".pdf" then
      RunOutcome.errInvalidInput
    else
      let outPath := resolvedOutputPath inPath st.outputNameEdit
      if env.pathExists outPath = true ∧ env.confirmOverwrite = false then
        RunOutcome.abortOverwrite
      else
        match env.resizeResult with
        | Except.error e => RunOutcome.opFailed ("出力に失敗しました。\n" ++ e)
        | Except.ok _ => RunOutcome.saved outPath

/-- C5: for every selected input path, the default output filename is
`{input_stem}_{size_label}.pdf` — both in `refresh_default_output` and as the
fallback in `run` — and the resolved output path lives in the same directory
as the input file. -/
theorem default_output_name_spec (p : FsPath) (st : ShellState) (edit : String) :
    defaultOutputName p = pathStem p.name ++ "_" ++ sizeLabel ++ ".pdf" ∧
    (st.inputPath = some p → st.outputNameEdit = "" →
      (refreshDefaultOutput st).outputNameEdit
        = pathStem p.name ++ "_" ++ sizeLabel ++ ".pdf") ∧
    (resolvedOutputPath p edit).parent = p.parent ∧
    (strStrip edit = "" →
      (resolvedOutputPath p edit).name
        = pathStem p.name ++ "_" ++ sizeLabel ++ ".pdf") := by
  refine ⟨rfl, ?_, rfl, ?_⟩
  · intro hp he
    simp [refreshDefaultOutput, hp, he, defaultOutputName]
  · intro he
    simp [resolvedOutputPath, resolvedOutputName, withName, he, defaultOutputName]

/-- Witness for C5 at a concrete input path and empty output-name edit. -/
theorem default_output_name_spec_w :
    defaultOutputName (FsPath.mk ["docs"] "sample.pdf")
      = pathStem "sample.pdf" ++ "_" ++ sizeLabel ++ ".pdf" ∧
    (refreshDefaultOutput
        (ShellState.mk (some (FsPath.mk ["docs"] "sample.pdf")) "")).outputNameEdit
      = pathStem "sample.pdf" ++ "_" ++ sizeLabel ++ ".pdf" ∧
    (resolvedOutputPath (FsPath.mk ["docs"] "sample.pdf") "").parent = ["docs"] ∧
    (resolvedOutputPath (FsPath.mk ["docs"] "sample.pdf") "").name
      = pathStem "sample.pdf" ++ "_" ++ sizeLabel ++ ".pdf" :=
  have h := default_output_name_spec (FsPath.mk ["docs"] "sample.pdf")
    (ShellState.mk (some (FsPath.mk ["docs"] "sample.pdf")) "") ""
  ⟨h.1, h.2.1 rfl rfl, h.2.2.1, h.2.2.2 rfl⟩

/-- C6: if no input path is set, or the set input path does not exist, or its
suffix (lowered) is not ".pdf", then `run` stops at a validation message: the
resize operation is never invoked and nothing is saved or reported as an
operation failure. -/
theorem run_rejects_invalid_input (st : ShellState) (env : Env)
    (h : st.inputPath = none ∨
      ∃ p, st.inputPath = some p ∧
        (env.pathExists p = false ∨ strLower (pathSuffix p.name) ≠ ".pdf")) :
    (runShell st env = RunOutcome.warnNoInput ∨
      runShell st env = RunOutcome.errInvalidInput) ∧
    (∀ q, runShell st env ≠ RunOutcome.saved q) ∧
    (∀ m, runShell st env ≠ RunOutcome.opFailed m) := by
  rcases h with h | ⟨p, hp, hv⟩
  · have hrun : runShell st env = RunOutcome.warnNoInput := by
      simp [runShell, h]
    rw [hrun]
    exact ⟨Or.inl rfl, fun q => by simp, fun m => by simp⟩
  · have hrun : runShell st env = RunOutcome.errInvalidInput := by
      simp only [runShell, hp]
      rw [if_pos hv]
    rw [hrun]
    exact ⟨Or.inr rfl, fun q => by simp, fun m => by simp⟩

/-- Witness for C6: no input path is set; the not-saved and not-failed parts
are instantiated at a concrete path and message. -/
theorem run_rejects_invalid_input_w :
    (runShell (ShellState.mk none "")
        (Env.mk (fun _ => false) false (Except.ok Unit.unit)) = RunOutcome.warnNoInput ∨
      runShell (ShellState.mk none "")
        (Env.mk (fun _ => false) false (Except.ok Unit.unit)) = RunOutcome.errInvalidInput) ∧
    runShell (ShellState.mk none "")
        (Env.mk (fun _ => false) false (Except.ok Unit.unit))
      ≠ RunOutcome.saved (FsPath.mk [] "a_B5.pdf") ∧
    runShell (ShellState.mk none "")
        (Env.mk (fun _ => false) false (Except.ok Unit.unit))
      ≠ RunOutcome.opFailed "boom" :=
  have h := run_rejects_invalid_input (ShellState.mk none "")
    (Env.mk (fun _ => false) false (Except.ok Unit.unit)) (Or.inl rfl)
  ⟨h.1, h.2.1 (FsPath.mk [] "a_B5.pdf"), h.2.2 "boom"⟩

/-- C7: if the resolved output path already exists and the user declines the
overwrite confirmation, `run` aborts: the resize operation is never invoked
and nothing is saved or reported as an operation failure, so the existing
file is untouched. -/
theorem run_aborts_on_declined_overwrite (st : ShellState) (env : Env) (p : FsPath)
    (hp : st.inputPath = some p)
    (hex : env.pathExists p = true)
    (hsuf : strLower (pathSuffix p.name) = ".pdf")
    (hout : env.pathExists (resolvedOutputPath p st.outputNameEdit) = true)
    (hconf : env.confirmOverwrite = false) :
    runShell st env = RunOutcome.abortOverwrite ∧
    (∀ q, runShell st env ≠ RunOutcome.saved q) ∧
    (∀ m, runShell st env ≠ RunOutcome.opFailed m) := by
  have hrun : runShell st env = RunOutcome.abortOverwrite := by
    simp only [runShell, hp]
    rw [if_neg (by simp [hex, hsuf])]
    rw [if_pos ⟨hout, hconf⟩]
  rw [hrun]
  exact ⟨rfl, fun q => by simp, fun m => by simp⟩

/-- Witness for C7: an existing "a.pdf" input whose output path also exists,
with the overwrite confirmation declined. -/
theorem run_aborts_on_declined_overwrite_w :
    runShell (ShellState.mk (some (FsPath.mk [] "a.pdf")) "")
        (Env.mk (fun _ => true) false (Except.ok Unit.unit)) = RunOutcome.abortOverwrite ∧
    runShell (ShellState.mk (some (FsPath.mk [] "a.pdf")) "")
        (Env.mk (fun _ => true) false (Except.ok Unit.unit))
      ≠ RunOutcome.saved (FsPath.mk [] "a_B5.pdf") ∧
    runShell (ShellState.mk (some (FsPath.mk [] "a.pdf")) "")
        (Env.mk (fun _ => true) false (Except.ok Unit.unit))
      ≠ RunOutcome.opFailed "boom" :=
  have h := run_aborts_on_declined_overwrite (ShellState.mk (some (FsPath.mk [] "a.pdf")) "")
    (Env.mk (fun _ => true) false (Except.ok Unit.unit)) (FsPath.mk [] "a.pdf")
    rfl rfl (by decide) rfl rfl
  ⟨h.1, h.2.1 (FsPath.mk [] "a_B5.pdf"), h.2.2 "boom"⟩

/-- C8: every error raised by the resize operation is caught at the `run`
boundary and turned into a failure message that appends the underlying error
text; `run` returns normally (the shell keeps running). -/
theorem run_reports_resize_failure (st : ShellState) (env : Env) (p : FsPath) (e : String)
    (hp : st.inputPath = some p)
    (hex : env.pathExists p = true)
    (hsuf : strLower (pathSuffix p.name) = ".pdf")
    (hover : env.pathExists (resolvedOutputPath p st.outputNameEdit) = false ∨
      env.confirmOverwrite = true)
    (herr : env.resizeResult = Except.error e) :
    runShell st env = RunOutcome.opFailed ("出力に失敗しました。\n" ++ e) ∧
    ∃ pre, "出力に失敗しました。\n" ++ e = pre ++ e := by
  have hrun : runShell st env = RunOutcome.opFailed ("出力に失敗しました。\n" ++ e) := by
    simp only [runShell, hp]
    rw [if_neg (by simp [hex, hsuf])]
    rw [if_neg (by rcases hover with h | h <;> simp [h])]
    rw [herr]
  exact ⟨hrun, ⟨"出力に失敗しました。\n", rfl⟩⟩

/-- Witness for C8: a valid "a.pdf" input, a fresh output path, and a resize
call that raises "boom". -/
theorem run_reports_resize_failure_w :
    runShell (ShellState.mk (some (FsPath.mk [] "a.pdf")) "")
        (Env.mk (fun _ => true) true (Except.error "boom"))
      = RunOutcome.opFailed ("出力に失敗しました。\n" ++ "boom") :=
  (run_reports_resize_failure (ShellState.mk (some (FsPath.mk [] "a.pdf")) "")
    (Env.mk (fun _ => true) true (Except.error "boom")) (FsPath.mk [] "a.pdf") "boom"
    rfl rfl (by decide) (Or.inr rfl) rfl).1
